import Mathlib

/-!
Verification of the UI interaction core of the stocker terminal dashboard
(source file src/app.rs): time-frame parsing and display, date-range
derivation, menu selection state, target-area hit testing, and the
frame-rate counter.

Modelling conventions:
* A chrono DateTime of Utc at second precision is modelled as an Int of
  seconds since the Unix epoch; a chrono Duration built by Duration::days
  is modelled as that many days in seconds.  The chrono method date()
  truncates a timestamp to its calendar day, i.e. floor division by 86400
  (Int division in Lean is Euclidean division, which is floor division for
  the positive divisor 86400), and and_hms rebuilds a timestamp from a day
  number and a time of day.
* A tui layout Rect stores u16 coordinates; we use Nat with the
  saturating_add of right() and bottom() made explicit.  The wrapping of
  u16 addition inside inner() is not modelled: all rectangles considered
  by the claims stay far below 2 ^ 16, where Nat and u16 agree.
* An im OrdMap of UiTarget to Rect is an ordered (balanced search tree)
  map whose iterator yields entries in ascending key order, the key order
  being Ord for UiTarget; with only five possible keys it is modelled as a
  lookup function together with iteration over the keys in ascending
  order.
* Rust methods that mutate through mutable references or interior
  mutability (RwLock, atomics) become state-passing functions; calls to
  panicking constructs (expect, todo) become an explicit error value.
  The run-to-completion loop of the program never interleaves the
  operations considered here, so sequential state passing is faithful.
-/

/-- Calendar day number of a timestamp, modelling the chrono date()
method: floor division of the epoch-second count by 86400.  Throughout,
a chrono DateTime of Utc is an Int of seconds since the Unix epoch. -/
def dayOf (t : Int) : Int := t / 86400

/-- Modelling chrono Duration::days: a duration of that many whole days,
measured in seconds. -/
def Duration.days (n : Int) : Int := n * 86400

/-- Modelling Date::and_hms on day number d: the timestamp of time
h:m:s on that day. -/
def Date.and_hms (d h m s : Int) : Int := d * 86400 + h * 3600 + m * 60 + s

/-- The TimeFrame enum of src/app.rs. -/
inductive TimeFrame
  | fiveDays
  | oneMonth
  | threeMonths
  | sixMonths
  | yearToDate
  | oneYear
  | twoYears
  | fiveYears
  | tenYears
  | max
deriving DecidableEq, Repr

/-- TimeFrame::duration: the nominal duration of each fixed-duration
variant as a chrono Duration (none for YearToDate and Max). -/
def TimeFrame.duration : TimeFrame → Option Int
  | .fiveDays => some (Duration.days 5)
  | .oneMonth => some (Duration.days 30)
  | .threeMonths => some (Duration.days (30 * 3))
  | .sixMonths => some (Duration.days (30 * 6))
  | .oneYear => some (Duration.days (30 * 12))
  | .twoYears => some (Duration.days (30 * 12 * 2))
  | .fiveYears => some (Duration.days (30 * 12 * 5))
  | .tenYears => some (Duration.days (30 * 12 * 10))
  | _ => none

/-- The ParseTimeFrameError enum of src/app.rs. -/
inductive ParseTimeFrameError
  | empty
  | invalid
deriving DecidableEq, Repr

/-- FromStr for TimeFrame (from_str): the string patterns of the match in
src/app.rs, in order.  Each variant accepts exactly its short display code
and its lowercase provider-style code; the empty string yields Empty and
anything else yields Invalid. -/
def TimeFrame.from_str (s : String) : Except ParseTimeFrameError TimeFrame :=
  match s with
  | "5D" | "5d" => .ok .fiveDays
  | "1M" | "1mo" => .ok .oneMonth
  | "3M" | "3mo" => .ok .threeMonths
  | "6M" | "6mo" => .ok .sixMonths
  | "YTD" | "ytd" => .ok .yearToDate
  | "1Y" | "1y" => .ok .oneYear
  | "2Y" | "2y" => .ok .twoYears
  | "5Y" | "5y" => .ok .fiveYears
  | "10Y" | "10y" => .ok .tenYears
  | "MAX" | "max" => .ok .max
  | "" => .error .empty
  | _ => .error .invalid

/-- Display for TimeFrame: the short display code written by fmt. -/
def TimeFrame.display : TimeFrame → String
  | .fiveDays => "5D"
  | .oneMonth => "1M"
  | .threeMonths => "3M"
  | .sixMonths => "6M"
  | .yearToDate => "YTD"
  | .oneYear => "1Y"
  | .twoYears => "2Y"
  | .fiveYears => "5Y"
  | .tenYears => "10Y"
  | .max => "MAX"

/-- The lowercase provider-style code of each variant: the textual code of
the yahoo_finance Interval value returned by TimeFrame::interval
(Interval::_5d is "5d", Interval::_1mo is "1mo", and so on); these are
exactly the second string literals accepted by from_str. -/
def TimeFrame.provider_code : TimeFrame → String
  | .fiveDays => "5d"
  | .oneMonth => "1mo"
  | .threeMonths => "3mo"
  | .sixMonths => "6mo"
  | .yearToDate => "ytd"
  | .oneYear => "1y"
  | .twoYears => "2y"
  | .fiveYears => "5y"
  | .tenYears => "10y"
  | .max => "max"

/-- The UiState struct of src/app.rs, restricted to the plainly owned
fields that the date-range operations read and write.  The
frame_rate_counter, stock_symbol_input_state, time_frame_menu_state and
target_areas fields are modelled as standalone values of their own types
below: no claim couples them to UiState through these operations, and the
registry and menu live behind interior mutability (RwLock) in the source,
so their operations only ever touch the field itself. -/
structure UiState where
  debug_draw : Bool
  end_date : Option Int
  start_date : Option Int
  time_frame : TimeFrame
deriving DecidableEq, Repr

/-- UiState::clear_date_range: sets both dates to none (the source wraps
the unit result in Ok, which never fails). -/
def UiState.clear_date_range (s : UiState) : UiState :=
  { s with start_date := none, end_date := none }

/-- UiState::shift_date_range_before.  The expect call on a time frame
without a duration panics; that is modelled as none.  Otherwise the end
date becomes 23:59:59 of the day of dt minus one day, and the start date
becomes 00:00:00 of the day of (end minus duration plus one day). -/
def UiState.shift_date_range_before (s : UiState) (dt : Int) : Option UiState :=
  match s.time_frame.duration with
  | none => none
  | some time_frame_duration =>
    let end_date := Date.and_hms (dayOf (dt - Duration.days 1)) 23 59 59
    let start_date := Date.and_hms (dayOf (end_date - time_frame_duration + Duration.days 1)) 0 0 0
    some { s with start_date := some start_date, end_date := some end_date }

/-- UiState::shift_date_range_after.  The expect call on a time frame
without a duration panics; that is modelled as none.  The current
wall-clock time read by Utc::now() is passed in as now.  Both dates are
set, and then cleared again when the computed end date lies strictly
after now. -/
def UiState.shift_date_range_after (s : UiState) (dt : Int) (now : Int) :
    Option UiState :=
  match s.time_frame.duration with
  | none => none
  | some time_frame_duration =>
    let start_date := Date.and_hms (dayOf (dt + Duration.days 1)) 0 0 0
    let end_date := Date.and_hms (dayOf (start_date + time_frame_duration - Duration.days 1)) 23 59 59
    let s1 := { s with start_date := some start_date, end_date := some end_date }
    some (if now < end_date then s1.clear_date_range else s1)

/-- Helper for examples: a fresh UiState holding the given time frame and
no date range. -/
def uiStateWith (tf : TimeFrame) : UiState :=
  { debug_draw := false, end_date := none, start_date := none, time_frame := tf }

/-- Every fixed duration of a time frame is a positive whole number of
days (in fact at least five). -/
theorem TimeFrame.duration_days_pos (tf : TimeFrame) (k : Int)
    (h : tf.duration = some (Duration.days k)) : 1 ≤ k := by
  cases tf <;> simp [TimeFrame.duration, Duration.days] at h <;> omega

/-- C1.  For every reference timestamp dt and every TimeFrame with a fixed
duration of k days, shift_date_range_before sets the end date to 23:59:59
of the day preceding the day of dt and the start date to 00:00:00 of the
day (k - 1) days earlier than the end date; hence start is at most end,
start has time of day 00:00:00, end has time of day 23:59:59, and end is
strictly before the first instant of the day of dt.  In particular, with
TimeFrame OneMonth (30 days) and dt = 2024-03-15T12:00:00Z (epoch second
1710504000), the end date is 2024-03-14T23:59:59Z (1710460799) and the
start date is 2024-02-14T00:00:00Z (1707868800). -/
theorem shift_date_range_before_spec (s : UiState) (dt : Int) (k : Int)
    (h : s.time_frame.duration = some (Duration.days k)) :
    (∃ S E : Int,
      s.shift_date_range_before dt = some { s with start_date := some S, end_date := some E } ∧
      E = Date.and_hms (dayOf dt - 1) 23 59 59 ∧
      S = Date.and_hms (dayOf dt - 1 - (k - 1)) 0 0 0 ∧
      S ≤ E ∧ S % 86400 = 0 ∧ E % 86400 = 86399 ∧ E < dayOf dt * 86400) ∧
    (uiStateWith TimeFrame.oneMonth).shift_date_range_before 1710504000 =
      some { uiStateWith TimeFrame.oneMonth with
              start_date := some 1707868800, end_date := some 1710460799 } := by
  have hk := TimeFrame.duration_days_pos s.time_frame k h
  constructor
  · simp only [UiState.shift_date_range_before, h]
    refine ⟨_, _, rfl, ?_, ?_, ?_, ?_, ?_, ?_⟩ <;>
      simp only [Date.and_hms, dayOf, Duration.days] <;> omega
  · decide

/-- C1 witness: the concrete OneMonth example, an instance of the
theorem. -/
theorem shift_date_range_before_witness :
    (uiStateWith TimeFrame.oneMonth).shift_date_range_before 1710504000 =
      some { uiStateWith TimeFrame.oneMonth with
              start_date := some 1707868800, end_date := some 1710460799 } :=
  (shift_date_range_before_spec (uiStateWith TimeFrame.oneMonth) 1710504000 30 rfl).2

/-- C2.  For every reference timestamp dt, wall-clock time now, and every
TimeFrame with a fixed duration of k days, shift_date_range_after sets the
start date to 00:00:00 of the day following the day of dt and the end date
to 23:59:59 of the day (k - 1) days after the start, a range strictly
after the day of dt; except that when the computed end date is strictly
after now, both dates are cleared to none instead. -/
theorem shift_date_range_after_spec (s : UiState) (dt now : Int) (k : Int)
    (h : s.time_frame.duration = some (Duration.days k)) :
    ∃ S E : Int,
      s.shift_date_range_after dt now =
        some (if now < E then { s with start_date := none, end_date := none }
              else { s with start_date := some S, end_date := some E }) ∧
      S = Date.and_hms (dayOf dt + 1) 0 0 0 ∧
      E = Date.and_hms (dayOf dt + 1 + (k - 1)) 23 59 59 ∧
      S ≤ E ∧ S % 86400 = 0 ∧ E % 86400 = 86399 ∧
      dayOf dt * 86400 + 86399 < S := by
  have hk := TimeFrame.duration_days_pos s.time_frame k h
  simp only [UiState.shift_date_range_after, UiState.clear_date_range, h]
  refine ⟨_, _, rfl, ?_, ?_, ?_, ?_, ?_, ?_⟩ <;>
    simp only [Date.and_hms, dayOf, Duration.days] <;> omega

/-- C2 witness: with TimeFrame OneMonth, dt = 2024-03-15T12:00:00Z and a
wall clock in 2030, the range is 2024-03-16T00:00:00Z (1710547200) to
2024-04-14T23:59:59Z (1713139199); with the wall clock at dt itself the
computed end is in the future and the range is cleared. -/
theorem shift_date_range_after_witness :
    (uiStateWith TimeFrame.oneMonth).shift_date_range_after 1710504000 1893456000 =
      some { uiStateWith TimeFrame.oneMonth with
              start_date := some 1710547200, end_date := some 1713139199 } ∧
    (uiStateWith TimeFrame.oneMonth).shift_date_range_after 1710504000 1710504000 =
      some { uiStateWith TimeFrame.oneMonth with
              start_date := none, end_date := none } := by
  constructor
  · obtain ⟨S, E, h1, hS, hE, -⟩ :=
      shift_date_range_after_spec (uiStateWith TimeFrame.oneMonth) 1710504000 1893456000 30 rfl
    subst hS hE
    rw [h1]
    decide
  · obtain ⟨S, E, h1, hS, hE, -⟩ :=
      shift_date_range_after_spec (uiStateWith TimeFrame.oneMonth) 1710504000 1710504000 30 rfl
    subst hS hE
    rw [h1]
    decide

/-- The tui layout Rect: a rectangle of character cells given by its
top-left corner and size.  The fields are u16 in the source; the claims
stay far below 2 ^ 16, so they are modelled as Nat. -/
structure Rect where
  x : Nat
  y : Nat
  width : Nat
  height : Nat
deriving DecidableEq, Repr

/-- Rect::left. -/
def Rect.left (r : Rect) : Nat := r.x

/-- Rect::right: x saturating_add width in u16. -/
def Rect.right (r : Rect) : Nat := min (r.x + r.width) 65535

/-- Rect::top. -/
def Rect.top (r : Rect) : Nat := r.y

/-- Rect::bottom: y saturating_add height in u16. -/
def Rect.bottom (r : Rect) : Nat := min (r.y + r.height) 65535

/-- Rect::default: the all-zero rectangle. -/
def Rect.default : Rect := ⟨0, 0, 0, 0⟩

/-- Rect::inner with a Margin of the given horizontal and vertical sizes:
the interior after removing the margin on every side, or the default
rectangle when the margin does not fit. -/
def Rect.inner (r : Rect) (horizontal vertical : Nat) : Rect :=
  if r.width < 2 * horizontal ∨ r.height < 2 * vertical then Rect.default
  else ⟨r.x + horizontal, r.y + vertical, r.width - 2 * horizontal, r.height - 2 * vertical⟩

/-- The containment test used by the closure inside UiState::target_area:
left at most x, right at least x, top at most y, bottom at least y (the
right and bottom edges are inclusive). -/
def Rect.containsPt (area : Rect) (x y : Nat) : Bool :=
  area.left ≤ x && area.right ≥ x && area.top ≤ y && area.bottom ≥ y

/-- The UiTarget enum of src/app.rs, in declaration order. -/
inductive UiTarget
  | stockName
  | stockSymbol
  | stockSymbolInput
  | timeFrame
  | timeFrameMenu
deriving DecidableEq, Repr

/-- UiTarget::zindex. -/
def UiTarget.zindex : UiTarget → Int
  | .stockName => 0
  | .stockSymbol => 0
  | .stockSymbolInput => 1
  | .timeFrame => 0
  | .timeFrameMenu => 1

/-- The enum discriminant used by Ord for UiTarget as the tie breaker
(the cast of self to isize): the declaration index. -/
def UiTarget.discr : UiTarget → Nat
  | .stockName => 0
  | .stockSymbol => 1
  | .stockSymbolInput => 2
  | .timeFrame => 3
  | .timeFrameMenu => 4

/-- The strict order underlying Ord for UiTarget: compare zindex first,
then break ties by the enum discriminant. -/
abbrev UiTarget.ltP (a b : UiTarget) : Prop :=
  a.zindex < b.zindex ∨ (a.zindex = b.zindex ∧ a.discr < b.discr)

/-- The five UiTarget values in ascending Ord order: zindex 0 targets in
declaration order, then zindex 1 targets in declaration order. -/
def sortedTargets : List UiTarget :=
  [.stockName, .stockSymbol, .timeFrame, .stockSymbolInput, .timeFrameMenu]

/-- The target_areas field of UiState: an im OrdMap from UiTarget to
Rect, behind an RwLock.  An OrdMap is an ordered (search tree) map whose
iterator yields entries in ascending key order; with only five possible
keys it is modelled as the lookup function, with iteration defined below
as the traversal of the keys in ascending Ord order. -/
structure TargetAreas where
  map : UiTarget → Option Rect

/-- The empty registry (the ordmap literal used by Default for UiState,
and the result of OrdMap::clear). -/
def TargetAreas.empty : TargetAreas := ⟨fun _ => none⟩

/-- OrdMap::insert: replaces any previous rectangle for the target and
leaves every other entry unchanged. -/
def TargetAreas.insert (m : TargetAreas) (target : UiTarget) (area : Rect) : TargetAreas :=
  ⟨fun t => if t = target then some area else m.map t⟩

/-- The OrdMap iterator (into_iter on the clone): the entries in
ascending key order. -/
def TargetAreas.toList (m : TargetAreas) : List (UiTarget × Rect) :=
  sortedTargets.filterMap (fun t => (m.map t).map fun area => (t, area))

/-- UiState::target_area: scan the registry entries in reverse iteration
order, i.e. descending key order, and return the first whose rectangle
contains the point. -/
def target_area (target_areas : TargetAreas) (x y : Nat) : Option (UiTarget × Rect) :=
  (target_areas.toList.reverse).find? fun p => p.2.containsPt x y

/-- UiState::set_target_area: insert into the registry. -/
def set_target_area (target_areas : TargetAreas) (target : UiTarget) (area : Rect) :
    TargetAreas :=
  target_areas.insert target area

/-- UiState::clear_target_areas: clear the registry. -/
def clear_target_areas (_ : TargetAreas) : TargetAreas := TargetAreas.empty

/-- The error values produced by MenuState operations through anyhow
with_context: NotFound for select on an absent item, NoSelection for
navigation with nothing selected. -/
inductive MenuError
  | notFound
  | noSelection
deriving DecidableEq, Repr

/-- The MenuState struct of src/app.rs.  The tui ListState behind the
RwLock only contributes its selected index, an Option of Nat (ListState
default has no selection). -/
structure MenuState (T : Type) where
  active : Bool
  items : List T
  selected : Option Nat

/-- MenuState::new: the given items, inactive, nothing selected. -/
def MenuState.new {T : Type} (items : List T) : MenuState T :=
  { active := false, items := items, selected := none }

/-- Iterator::position over a list: the first index whose element equals
the given one. -/
def listPosition {T : Type} [DecidableEq T] (item : T) : List T → Option Nat
  | [] => none
  | t :: ts => if t = item then some 0 else (listPosition item ts).map (· + 1)

/-- MenuState::select_nth: set the selection unconditionally. -/
def MenuState.select_nth {T : Type} (m : MenuState T) (n : Nat) : MenuState T :=
  { m with selected := some n }

/-- MenuState::select: select the first item equal to the argument, or
fail with NotFound (context "item not found") when absent. -/
def MenuState.select {T : Type} [DecidableEq T] (m : MenuState T) (item : T) :
    Except MenuError (MenuState T) :=
  match listPosition item m.items with
  | none => .error .notFound
  | some n => .ok (m.select_nth n)

/-- MenuState::select_prev: fail with NoSelection (context "cannot select
previous item when nothing is selected") when nothing is selected;
otherwise move one index back unless already at the first item. -/
def MenuState.select_prev {T : Type} (m : MenuState T) : Except MenuError (MenuState T) :=
  match m.selected with
  | none => .error .noSelection
  | some selected => .ok (if 0 < selected then m.select_nth (selected - 1) else m)

/-- MenuState::select_next: fail with NoSelection (context "cannot select
next item when nothing is selected") when nothing is selected; otherwise
move one index forward unless already at the last item (the source
compares against items.len() - 1 of usize arithmetic; the claims only
concern nonempty item lists, where Nat and usize subtraction agree). -/
def MenuState.select_next {T : Type} (m : MenuState T) : Except MenuError (MenuState T) :=
  match m.selected with
  | none => .error .noSelection
  | some selected => .ok (if selected < m.items.length - 1 then m.select_nth (selected + 1) else m)

/-- MenuState::clear_selection. -/
def MenuState.clear_selection {T : Type} (m : MenuState T) : MenuState T :=
  { m with selected := none }

/-- MenuState::selected, the accessor (renamed selected_item because the
selected index is already a field here): a copy of the selected item, or
none.  The source indexes items directly, which would panic on an invalid
index; that cannot happen through the operations above on a fixed item
list, and an invalid index is modelled as none. -/
def MenuState.selected_item {T : Type} (m : MenuState T) : Option T :=
  match m.selected with
  | none => none
  | some selected => m.items.get? selected

/-- UiState::menu_index: map a point to the zero-based menu row.  The
interior is the menu area shrunk by the one-cell border margin.  The
todo macro reached when the item list is longer than the interior height
panics; that is modelled as the error value. -/
def menu_index {T : Type} (menu_state : MenuState T) (menu_area : Rect) (x y : Nat) :
    Except Unit (Option Nat) :=
  let inner_area := menu_area.inner 1 1
  if inner_area.left ≤ x ∧ inner_area.right ≥ x ∧ inner_area.top ≤ y ∧ inner_area.bottom ≥ y then
    if inner_area.height < menu_state.items.length then
      .error ()
    else
      let n : Nat := y - inner_area.top
      if n < menu_state.items.length then .ok (some n) else .ok none
  else .ok none

/-- The FrameRateCounter struct of src/app.rs.  The frame_time and frames
fields are AtomicU16 values, modelled as Nat kept below 65536; the
frame_time field is named frame_time_cell here so that the frame_time
accessor below can keep its source name.  last_interval is the DateTime
of the last sample reset and update_interval the configured chrono
Duration, both in milliseconds. -/
structure FrameRateCounter where
  frame_time_cell : Nat
  frames : Nat
  last_interval : Int
  update_interval : Int
deriving DecidableEq, Repr

/-- FrameRateCounter::new at wall-clock time now: zero counters, the last
interval timestamp starts at now. -/
def FrameRateCounter.new (update_interval : Int) (now : Int) : FrameRateCounter :=
  { frame_time_cell := 0, frames := 0, last_interval := now, update_interval := update_interval }

/-- FrameRateCounter::incr, with now the value read from Utc::now().  The
fetch_add wraps like the AtomicU16 it is.  When at least update_interval
has elapsed since last_interval, the sample is the elapsed milliseconds
divided by the incremented frame count: an f64 division followed by
floor and a saturating cast to u16.  On the operands at hand the f64
division and floor are exact integer floor division (Int division by a
positive divisor); the cast clamps into u16 range, and a frame counter
wrapped to zero yields an infinite quotient, hence 65535 for a positive
elapsed time and 0 otherwise. -/
def FrameRateCounter.incr (c : FrameRateCounter) (now : Int) : Option Nat × FrameRateCounter :=
  let frames := (c.frames + 1) % 65536
  if c.last_interval + c.update_interval ≤ now then
    let elapsed := now - c.last_interval
    let frame_time : Nat :=
      if frames = 0 then (if 0 < elapsed then 65535 else 0)
      else min (elapsed / (frames : Int)).toNat 65535
    (some frame_time,
      { frame_time_cell := frame_time, frames := 0, last_interval := now,
        update_interval := c.update_interval })
  else (none, { c with frames := frames })

/-- FrameRateCounter::frame_time: the stored sample, with the stored
value 0 doubling as the missing-sample marker. -/
def FrameRateCounter.frame_time (c : FrameRateCounter) : Option Nat :=
  match c.frame_time_cell with
  | 0 => none
  | ft => some ft

/-- C4.  Parsing the display code of any TimeFrame variant returns that
variant: from_str composed with the Display short code is the identity on
all ten variants. -/
theorem timeFrame_parse_display_roundTrip :
    ∀ t : TimeFrame, TimeFrame.from_str t.display = .ok t := by
  intro t
  cases t <;> rfl

/-- C5 counterexample.  Parsing is not case-insensitive: the short code
1M and the provider code 1mo are accepted for OneMonth, but the lowercase
form 1m of the short code is rejected with Invalid. -/
theorem timeFrame_parse_not_case_insensitive :
    TimeFrame.from_str "1M" = .ok .oneMonth ∧
    TimeFrame.from_str "1mo" = .ok .oneMonth ∧
    TimeFrame.from_str "1m" = .error .invalid :=
  ⟨rfl, rfl, rfl⟩

/-- C5 amended.  Parse accepts exactly the short display codes and the
lowercase provider-style codes: for every string s and variant t, parsing
s succeeds with t if and only if s is the short code of t or the
provider code of t, by exact string match (for FiveDays and the
year-count variants the provider code happens to be the lowercasing of
the short code, but no other casings are accepted); the empty string
fails with Empty, and every other string that is no variant's code —
for example xyz — fails with Invalid. -/
theorem timeFrame_parse_codes_spec :
    (∀ (s : String) (t : TimeFrame),
      TimeFrame.from_str s = .ok t ↔ s = t.display ∨ s = t.provider_code) ∧
    TimeFrame.from_str "" = .error .empty ∧
    (∀ s : String,
      s ≠ "" → (∀ t : TimeFrame, s ≠ t.display ∧ s ≠ t.provider_code) →
      TimeFrame.from_str s = .error .invalid) ∧
    TimeFrame.from_str "xyz" = .error .invalid := by
  refine ⟨?_, rfl, ?_, rfl⟩
  · intro s t
    constructor
    · intro h
      unfold TimeFrame.from_str at h
      split at h <;>
        first
          | exact Except.noConfusion h
          | (injection h with h; subst h;
             simp [TimeFrame.display, TimeFrame.provider_code])
    · rintro (rfl | rfl) <;> cases t <;> rfl
  · intro s hne hnc
    unfold TimeFrame.from_str
    split <;>
      first
        | rfl
        | exact absurd rfl hne
        | exact absurd rfl (hnc .fiveDays).1
        | exact absurd rfl (hnc .fiveDays).2
        | exact absurd rfl (hnc .oneMonth).1
        | exact absurd rfl (hnc .oneMonth).2
        | exact absurd rfl (hnc .threeMonths).1
        | exact absurd rfl (hnc .threeMonths).2
        | exact absurd rfl (hnc .sixMonths).1
        | exact absurd rfl (hnc .sixMonths).2
        | exact absurd rfl (hnc .yearToDate).1
        | exact absurd rfl (hnc .yearToDate).2
        | exact absurd rfl (hnc .oneYear).1
        | exact absurd rfl (hnc .oneYear).2
        | exact absurd rfl (hnc .twoYears).1
        | exact absurd rfl (hnc .twoYears).2
        | exact absurd rfl (hnc .fiveYears).1
        | exact absurd rfl (hnc .fiveYears).2
        | exact absurd rfl (hnc .tenYears).1
        | exact absurd rfl (hnc .tenYears).2
        | exact absurd rfl (hnc .max).1
        | exact absurd rfl (hnc .max).2

/-- C5 witness: the characterization instantiated concretely — the short
code 5D and the provider code 1mo are accepted for their variants, and
xyz (nonempty and no variant's code) fails with Invalid. -/
theorem timeFrame_parse_codes_witness :
    TimeFrame.from_str "5D" = .ok .fiveDays ∧
    TimeFrame.from_str "1mo" = .ok .oneMonth ∧
    TimeFrame.from_str "xyz" = .error .invalid := by
  refine ⟨?_, ?_, ?_⟩
  · exact (timeFrame_parse_codes_spec.1 "5D" .fiveDays).mpr (Or.inl rfl)
  · exact (timeFrame_parse_codes_spec.1 "1mo" .oneMonth).mpr (Or.inr rfl)
  · exact timeFrame_parse_codes_spec.2.2.1 "xyz" (by decide)
      fun t => by cases t <;> exact ⟨by decide, by decide⟩

/-- C6.  Navigation on a MenuState: with no selection, select_next and
select_prev fail with the NoSelection error (returning no new state, so
the selection is unchanged); with a valid selected index, select_next
moves one index forward and select_prev one index back, both clamped at
the list bounds with no wraparound.  In particular, on items A, B, C with
no selection select_next fails; after selecting A, select_next selects B
(index 1); and with C selected, select_next is a no-op staying at C. -/
theorem menuState_navigation_spec :
    (∀ (T : Type) (m : MenuState T),
      m.selected = none →
        m.select_next = .error .noSelection ∧ m.select_prev = .error .noSelection) ∧
    (∀ (T : Type) (m : MenuState T) (s : Nat),
      m.selected = some s → s < m.items.length →
        m.select_next = .ok { m with selected := some (min (s + 1) (m.items.length - 1)) } ∧
        m.select_prev = .ok { m with selected := some (s - 1) }) ∧
    ((MenuState.new ["A", "B", "C"]).select_next = .error .noSelection ∧
      (MenuState.new ["A", "B", "C"]).select "A" =
        .ok { MenuState.new ["A", "B", "C"] with selected := some 0 } ∧
      ({ MenuState.new ["A", "B", "C"] with selected := some 0 }).select_next =
        .ok { MenuState.new ["A", "B", "C"] with selected := some 1 } ∧
      ({ MenuState.new ["A", "B", "C"] with selected := some 1 }).selected_item = some "B" ∧
      ({ MenuState.new ["A", "B", "C"] with selected := some 2 }).select_next =
        .ok { MenuState.new ["A", "B", "C"] with selected := some 2 }) := by
  refine ⟨?_, ?_, rfl, rfl, rfl, rfl, rfl⟩
  · intro T m h
    exact ⟨by simp only [MenuState.select_next, h], by simp only [MenuState.select_prev, h]⟩
  · intro T m s h hs
    constructor
    · simp only [MenuState.select_next, h, MenuState.select_nth]
      split_ifs with hlt
      · have hm : min (s + 1) (m.items.length - 1) = s + 1 := by omega
        rw [hm]
      · have hm : min (s + 1) (m.items.length - 1) = s := by omega
        rw [hm, ← h]
    · simp only [MenuState.select_prev, h, MenuState.select_nth]
      split_ifs with hlt
      · rfl
      · have hm : s - 1 = s := by omega
        rw [hm, ← h]

/-- C6 witness: the general navigation clauses instantiated on the
concrete three-item menu. -/
theorem menuState_navigation_witness :
    (MenuState.new ["A", "B", "C"]).select_next = .error .noSelection ∧
    ({ MenuState.new ["A", "B", "C"] with selected := some 0 }).select_next =
      .ok { MenuState.new ["A", "B", "C"] with selected := some 1 } ∧
    ({ MenuState.new ["A", "B", "C"] with selected := some 2 }).select_next =
      .ok { MenuState.new ["A", "B", "C"] with selected := some 2 } := by
  refine ⟨?_, ?_, ?_⟩
  · exact (menuState_navigation_spec.1 String (MenuState.new ["A", "B", "C"]) rfl).1
  · exact (menuState_navigation_spec.2.1 String
      { MenuState.new ["A", "B", "C"] with selected := some 0 } 0 rfl (by decide)).1
  · exact (menuState_navigation_spec.2.1 String
      { MenuState.new ["A", "B", "C"] with selected := some 2 } 2 rfl (by decide)).1

/-- Splitting lemma for find?: a successful search returns an element of
the list, and every element before it fails the test. -/
theorem find?_split {A : Type} (p : A → Bool) :
    ∀ (l : List A) (a : A), l.find? p = some a →
      ∃ l1 l2, l = l1 ++ a :: l2 ∧ ∀ b ∈ l1, p b = false := by
  intro l
  induction l with
  | nil => intro a h; simp at h
  | cons c cs ih =>
    intro a h
    by_cases hp : p c
    · rw [List.find?_cons_of_pos _ hp] at h
      cases h
      exact ⟨[], cs, rfl, by simp⟩
    · rw [List.find?_cons_of_neg _ hp] at h
      obtain ⟨l1, l2, heq, hfail⟩ := ih a h
      refine ⟨c :: l1, l2, by rw [heq]; rfl, ?_⟩
      intro b hb
      rcases List.mem_cons.mp hb with rfl | hb
      · simpa using hp
      · exact hfail b hb

/-- The listing of the five targets in sortedTargets is strictly
ascending for the Ord order on UiTarget. -/
theorem sortedTargets_pairwise : sortedTargets.Pairwise UiTarget.ltP := by decide

/-- Every target occurs in sortedTargets. -/
theorem mem_sortedTargets (t : UiTarget) : t ∈ sortedTargets := by cases t <;> decide

/-- The Ord order on UiTarget is irreflexive. -/
theorem UiTarget.ltP_irrefl : ∀ t : UiTarget, ¬t.ltP t := by
  intro t; cases t <;> decide

/-- The Ord order on UiTarget is asymmetric. -/
theorem UiTarget.ltP_asymm : ∀ a b : UiTarget, a.ltP b → ¬b.ltP a := by
  intro a b; cases a <;> cases b <;> decide

/-- Membership in the registry iteration is exactly the lookup relation. -/
theorem TargetAreas.mem_toList {m : TargetAreas} {t : UiTarget} {r : Rect} :
    (t, r) ∈ m.toList ↔ m.map t = some r := by
  unfold TargetAreas.toList
  rw [List.mem_filterMap]
  constructor
  · rintro ⟨a, -, hf⟩
    rcases ha : m.map a with - | r2 <;> rw [ha] at hf <;> simp at hf
    obtain ⟨rfl, rfl⟩ := hf
    exact ha
  · intro h
    exact ⟨t, mem_sortedTargets t, by rw [h]; rfl⟩

/-- The registry iteration is strictly ascending in the key order. -/
theorem TargetAreas.toList_pairwise (m : TargetAreas) :
    m.toList.Pairwise fun p q => UiTarget.ltP p.1 q.1 := by
  refine List.Pairwise.filterMap _ ?_ sortedTargets_pairwise
  intro a a2 hlt b hb b2 hb2
  rcases ha : m.map a with - | r <;> rw [ha] at hb <;> simp at hb
  rcases ha2 : m.map a2 with - | r2 <;> rw [ha2] at hb2 <;> simp at hb2
  rw [← hb, ← hb2]
  exact hlt

/-- C3.  Hit testing (UiState::target_area): a returned pair is a
registered entry whose rectangle contains the point and whose key
(zindex, then declaration index) is maximal among all registered entries
containing the point, i.e. the topmost one — among hits, a higher zindex
wins and the later-declared target wins a zindex tie; the result is none
exactly when no registered rectangle contains the point.  In particular,
with overlapping rectangles registered for TimeFrameMenu (zindex 1) and
TimeFrame (zindex 0), both containing the queried point, the TimeFrameMenu
entry is returned. -/
theorem target_area_spec :
    (∀ (m : TargetAreas) (x y : Nat) (t : UiTarget) (r : Rect),
      target_area m x y = some (t, r) →
        m.map t = some r ∧ r.containsPt x y = true ∧
        ∀ (t2 : UiTarget) (r2 : Rect),
          m.map t2 = some r2 → r2.containsPt x y = true → ¬t.ltP t2) ∧
    (∀ (m : TargetAreas) (x y : Nat),
      target_area m x y = none ↔
        ∀ (t : UiTarget) (r : Rect), m.map t = some r → r.containsPt x y = false) ∧
    target_area
        ((TargetAreas.empty.insert .timeFrameMenu ⟨2, 2, 10, 6⟩).insert
          .timeFrame ⟨0, 0, 20, 20⟩) 5 5 =
      some (.timeFrameMenu, ⟨2, 2, 10, 6⟩) := by
  refine ⟨?_, ?_, by decide⟩
  · intro m x y t r h
    unfold target_area at h
    have hmem : (t, r) ∈ m.toList :=
      List.mem_reverse.mp (List.mem_of_find?_eq_some h)
    have hcont := List.find?_some h
    refine ⟨TargetAreas.mem_toList.mp hmem, hcont, ?_⟩
    intro t2 r2 hmap2 hcont2
    obtain ⟨l1, l2, heq, hfail⟩ := find?_split _ _ _ h
    have hpair : (m.toList.reverse).Pairwise fun p q => UiTarget.ltP q.1 p.1 :=
      List.pairwise_reverse.mpr (m.toList_pairwise)
    rw [heq] at hpair
    have hmem2 : (t2, r2) ∈ m.toList.reverse :=
      List.mem_reverse.mpr (TargetAreas.mem_toList.mpr hmap2)
    rw [heq] at hmem2
    rcases List.mem_append.mp hmem2 with h1 | h2
    · exact absurd (hfail _ h1) (by simp [hcont2])
    · rcases List.mem_cons.mp h2 with heq2 | h3
      · have ht : t2 = t := congrArg Prod.fst heq2
        rw [ht]
        exact UiTarget.ltP_irrefl t
      · have := (List.pairwise_cons.mp (List.pairwise_append.mp hpair).2.1).1 _ h3
        exact UiTarget.ltP_asymm _ _ this
  · intro m x y
    unfold target_area
    rw [List.find?_eq_none]
    constructor
    · intro H t r hmap
      have := H (t, r) (List.mem_reverse.mpr (TargetAreas.mem_toList.mpr hmap))
      simpa using this
    · intro H p hp
      have hmem : (p.1, p.2) ∈ m.toList := List.mem_reverse.mp hp
      have := H p.1 p.2 (TargetAreas.mem_toList.mp hmem)
      simp [this]

/-- C3 witness: on the concrete overlapping registration, the returned
entry is registered, contains the point, and is not below the
also-containing TimeFrame entry in the stacking order. -/
theorem target_area_witness :
    ((TargetAreas.empty.insert .timeFrameMenu ⟨2, 2, 10, 6⟩).insert
        .timeFrame ⟨0, 0, 20, 20⟩).map .timeFrameMenu = some ⟨2, 2, 10, 6⟩ ∧
    Rect.containsPt ⟨2, 2, 10, 6⟩ 5 5 = true ∧
    ¬UiTarget.ltP .timeFrameMenu .timeFrame := by
  obtain ⟨h1, h2, h3⟩ := target_area_spec.1
    ((TargetAreas.empty.insert .timeFrameMenu ⟨2, 2, 10, 6⟩).insert .timeFrame ⟨0, 0, 20, 20⟩)
    5 5 .timeFrameMenu ⟨2, 2, 10, 6⟩ (by decide)
  exact ⟨h1, h2, h3 .timeFrame ⟨0, 0, 20, 20⟩ (by decide) (by decide)⟩

/-- C10 counterexample.  The registry does not preserve insertion order:
registering TimeFrameMenu first and TimeFrame second, the entries
nevertheless iterate with TimeFrame (zindex 0, the smaller key) first,
the reverse of the registration order. -/
theorem targetAreas_insertion_order_counterexample :
    ((TargetAreas.empty.insert .timeFrameMenu ⟨2, 2, 10, 6⟩).insert
        .timeFrame ⟨0, 0, 20, 20⟩).toList =
      [(.timeFrame, ⟨0, 0, 20, 20⟩), (.timeFrameMenu, ⟨2, 2, 10, 6⟩)] ∧
    ([(.timeFrame, ⟨0, 0, 20, 20⟩), (.timeFrameMenu, ⟨2, 2, 10, 6⟩)] :
        List (UiTarget × Rect)) ≠
      [(.timeFrameMenu, ⟨2, 2, 10, 6⟩), (.timeFrame, ⟨0, 0, 20, 20⟩)] := by
  exact ⟨by decide, by decide⟩

/-- C10 amended.  The registry is an ordered map keyed by UiTarget: its
entries iterate in ascending key order (zindex, then declaration index)
regardless of registration order, so hit_test scans them in descending
key order; and it keeps one rectangle per target — registering a
rectangle for a target already present replaces the prior rectangle for
that target and leaves every other entry unchanged. -/
theorem targetAreas_ordered_map_spec :
    (∀ m : TargetAreas, m.toList.Pairwise fun p q => UiTarget.ltP p.1 q.1) ∧
    (∀ (m : TargetAreas) (t : UiTarget) (r : Rect),
      (m.insert t r).map t = some r ∧
      ∀ t2 : UiTarget, t2 ≠ t → (m.insert t r).map t2 = m.map t2) := by
  refine ⟨TargetAreas.toList_pairwise, ?_⟩
  intro m t r
  refine ⟨by simp [TargetAreas.insert], ?_⟩
  intro t2 h2
  simp [TargetAreas.insert, h2]

/-- C10 witness: replacement on a concrete registry — re-registering
TimeFrameMenu replaces its rectangle and leaves the TimeFrame entry
alone. -/
theorem targetAreas_ordered_map_witness :
    ((TargetAreas.empty.insert .timeFrameMenu ⟨2, 2, 10, 6⟩).insert
        .timeFrameMenu ⟨3, 3, 4, 4⟩).map .timeFrameMenu = some ⟨3, 3, 4, 4⟩ ∧
    ((TargetAreas.empty.insert .timeFrame ⟨0, 0, 20, 20⟩).insert
        .timeFrameMenu ⟨3, 3, 4, 4⟩).map .timeFrame = some ⟨0, 0, 20, 20⟩ := by
  constructor
  · exact (targetAreas_ordered_map_spec.2
      (TargetAreas.empty.insert .timeFrameMenu ⟨2, 2, 10, 6⟩) .timeFrameMenu ⟨3, 3, 4, 4⟩).1
  · have h := (targetAreas_ordered_map_spec.2
      (TargetAreas.empty.insert .timeFrame ⟨0, 0, 20, 20⟩) .timeFrameMenu ⟨3, 3, 4, 4⟩).2
      .timeFrame (by decide)
    rw [h]
    decide

/-- Eleven render frames for the C7 example: the state of a counter with
a 1000 ms interval constructed at time 0, after ten incr calls all within
the first 1000 ms (at 0, 100, ..., 900 ms). -/
def frcRunState : FrameRateCounter :=
  List.foldl (fun c t => (c.incr t).2) (FrameRateCounter.new 1000 0)
    [0, 100, 200, 300, 400, 500, 600, 700, 800, 900]

/-- C7.  FrameRateCounter::incr always increments the frame counter (as
the wrapping u16 it is); before the sampling interval has elapsed it
returns none and changes nothing else, and once at least update_interval
has elapsed since the last reset it computes the elapsed milliseconds
divided by the incremented frame count, rounded down to a whole
millisecond, stores that as the latest sample, resets the frame counter
to zero and the last-sample timestamp to now, and returns the new sample
(the side conditions state that the incremented counter did not wrap to
zero and the quotient fits in the u16 store, which hold in every real
run).  In particular, with a 1000 ms interval, after ten calls within the
first 1000 ms an eleventh call at 1100 ms returns the sample
1100 / 11 = 100 ms. -/
theorem frameRateCounter_incr_spec :
    (∀ (c : FrameRateCounter) (now : Int),
      now < c.last_interval + c.update_interval →
        c.incr now = (none, { c with frames := (c.frames + 1) % 65536 })) ∧
    (∀ (c : FrameRateCounter) (now : Int),
      c.last_interval + c.update_interval ≤ now →
      (c.frames + 1) % 65536 ≠ 0 →
      (now - c.last_interval) / (((c.frames + 1) % 65536 : Nat) : Int) < 65536 →
        c.incr now =
          (some ((now - c.last_interval) / (((c.frames + 1) % 65536 : Nat) : Int)).toNat,
            { frame_time_cell :=
                ((now - c.last_interval) / (((c.frames + 1) % 65536 : Nat) : Int)).toNat,
              frames := 0, last_interval := now,
              update_interval := c.update_interval })) ∧
    (frcRunState.frames = 10 ∧ frcRunState.last_interval = 0 ∧
      frcRunState.frame_time_cell = 0 ∧
      frcRunState.incr 1100 =
        (some 100,
          { frame_time_cell := 100, frames := 0, last_interval := 1100,
            update_interval := 1000 })) := by
  refine ⟨?_, ?_, by decide, by decide, by decide, by decide⟩
  · intro c now hlt
    simp only [FrameRateCounter.incr]
    rw [if_neg (by omega)]
  · intro c now hle hnz hfit
    simp only [FrameRateCounter.incr]
    rw [if_pos (by omega), if_neg hnz]
    have hm : min ((now - c.last_interval) / (((c.frames + 1) % 65536 : Nat) : Int)).toNat 65535 =
        ((now - c.last_interval) / (((c.frames + 1) % 65536 : Nat) : Int)).toNat := by
      omega
    rw [hm]

/-- C7 witness: the reset clause instantiated on the concrete eleventh
call of the example run. -/
theorem frameRateCounter_incr_witness :
    frcRunState.incr 1100 =
      (some 100,
        { frame_time_cell := 100, frames := 0, last_interval := 1100,
          update_interval := 1000 }) := by
  have h := frameRateCounter_incr_spec.2.1 frcRunState 1100 (by decide) (by decide) (by decide)
  exact h.trans (by decide)

/-- C8 counterexample.  A counter with a 1 ms interval constructed at
time 0, incremented at 0 ms and again at 1 ms: the second call has seen a
full interval elapse and computes and returns the sample floor(1 / 2) =
0 ms, yet frame_time on the resulting state returns none, because the
stored sample 0 is indistinguishable from the missing-sample marker. -/
theorem frame_time_zero_sample_counterexample :
    (((FrameRateCounter.new 1 0).incr 0).2.incr 1).1 = some 0 ∧
    (((FrameRateCounter.new 1 0).incr 0).2.incr 1).2.frame_time = none := by
  exact ⟨by decide, by decide⟩

/-- A nonzero stored sample reads back as itself through frame_time. -/
theorem frame_time_of_ne_zero (c : FrameRateCounter) (h : c.frame_time_cell ≠ 0) :
    c.frame_time = some c.frame_time_cell := by
  cases c with
  | mk ftc fr li ui =>
    cases ftc with
    | zero => exact absurd rfl h
    | succ n => rfl

/-- C8 amended.  frame_time returns the stored sample exactly when that
sample is nonzero: it returns none on a freshly constructed counter
(before any full interval has elapsed), and after a sampling incr it
returns the newly computed sample provided that sample is nonzero — but
the stored value 0 doubles as the missing-sample marker, so a computed
sample of 0 ms also reads back as none. -/
theorem frame_time_spec :
    (∀ c : FrameRateCounter, c.frame_time = none ↔ c.frame_time_cell = 0) ∧
    (∀ i now : Int, (FrameRateCounter.new i now).frame_time = none) ∧
    (∀ (c c2 : FrameRateCounter) (now : Int) (ft : Nat),
      c.incr now = (some ft, c2) → ft ≠ 0 → c2.frame_time = some ft) := by
  refine ⟨?_, ?_, ?_⟩
  · intro c
    cases c with
    | mk ftc fr li ui => cases ftc <;> simp [FrameRateCounter.frame_time]
  · intro i now
    rfl
  · intro c c2 now ft h hnz
    simp only [FrameRateCounter.incr] at h
    split_ifs at h with hc hz he
    · injection h with h1 h2
      injection h1 with h1
      subst h1
      subst h2
      exact frame_time_of_ne_zero _ hnz
    · injection h with h1 h2
      injection h1 with h1
      subst h1
      exact absurd rfl hnz
    · injection h with h1 h2
      injection h1 with h1
      subst h1
      subst h2
      exact frame_time_of_ne_zero _ hnz
    · injection h with h1 h2
      exact Option.noConfusion h1

/-- C9 counterexample.  With a three-item menu and a menu area of
interior height 2, the list is longer than the interior; at a point
inside the interior, menu_index does not return none — it reaches the
todo macro for scrollable lists, i.e. it panics (the error value). -/
theorem menu_index_overflow_counterexample :
    menu_index (MenuState.new ["A", "B", "C"]) ⟨0, 0, 10, 4⟩ 2 2 = .error () ∧
    menu_index (MenuState.new ["A", "B", "C"]) ⟨0, 0, 10, 4⟩ 2 2 ≠ .ok none := by
  constructor
  · rfl
  · intro h
    exact Except.noConfusion (Eq.trans (by rfl) h)

/-- C9 amended.  menu_index returns none for every point outside the
menu interior, whatever the item list; for a point inside the interior
it returns the zero-based row (y minus the interior top) when that row
indexes an item, and none when the row is past the last item, provided
the item list fits the interior height — but when the item list is
longer than the interior height and the point is inside, it panics at
the todo macro (scrolling unsupported) instead of returning none. -/
theorem menu_index_spec :
    (∀ (T : Type) (ms : MenuState T) (menu_area : Rect) (x y : Nat),
      ¬((menu_area.inner 1 1).left ≤ x ∧ (menu_area.inner 1 1).right ≥ x ∧
          (menu_area.inner 1 1).top ≤ y ∧ (menu_area.inner 1 1).bottom ≥ y) →
        menu_index ms menu_area x y = .ok none) ∧
    (∀ (T : Type) (ms : MenuState T) (menu_area : Rect) (x y : Nat),
      ((menu_area.inner 1 1).left ≤ x ∧ (menu_area.inner 1 1).right ≥ x ∧
          (menu_area.inner 1 1).top ≤ y ∧ (menu_area.inner 1 1).bottom ≥ y) →
      ms.items.length ≤ (menu_area.inner 1 1).height →
        menu_index ms menu_area x y =
          .ok (if y - (menu_area.inner 1 1).top < ms.items.length
               then some (y - (menu_area.inner 1 1).top) else none)) ∧
    (∀ (T : Type) (ms : MenuState T) (menu_area : Rect) (x y : Nat),
      ((menu_area.inner 1 1).left ≤ x ∧ (menu_area.inner 1 1).right ≥ x ∧
          (menu_area.inner 1 1).top ≤ y ∧ (menu_area.inner 1 1).bottom ≥ y) →
      (menu_area.inner 1 1).height < ms.items.length →
        menu_index ms menu_area x y = .error ()) := by
  refine ⟨?_, ?_, ?_⟩
  · intro T ms menu_area x y hout
    simp only [menu_index]
    rw [if_neg hout]
  · intro T ms menu_area x y hin hfit
    simp only [menu_index]
    rw [if_pos hin, if_neg (by omega)]
    split_ifs <;> rfl
  · intro T ms menu_area x y hin hover
    simp only [menu_index]
    rw [if_pos hin, if_pos hover]

/-- C9 witness: the three clauses instantiated on a concrete three-item
menu — a fitting menu area maps an interior point to its row, an outside
point to none, and the overflowing menu area panics at an interior
point. -/
theorem menu_index_witness :
    menu_index (MenuState.new ["A", "B", "C"]) ⟨0, 0, 10, 5⟩ 2 2 = .ok (some 1) ∧
    menu_index (MenuState.new ["A", "B", "C"]) ⟨0, 0, 10, 5⟩ 0 0 = .ok none ∧
    menu_index (MenuState.new ["A", "B", "C"]) ⟨0, 0, 10, 4⟩ 2 2 = .error () := by
  refine ⟨?_, ?_, ?_⟩
  · exact (menu_index_spec.2.1 String (MenuState.new ["A", "B", "C"]) ⟨0, 0, 10, 5⟩ 2 2
      (by decide) (by decide)).trans rfl
  · exact menu_index_spec.1 String (MenuState.new ["A", "B", "C"]) ⟨0, 0, 10, 5⟩ 0 0 (by decide)
  · exact menu_index_spec.2.2 String (MenuState.new ["A", "B", "C"]) ⟨0, 0, 10, 4⟩ 2 2
      (by decide) (by decide)

/-- C8 witness: the amended clauses instantiated concretely — a fresh
counter reads back none, and the state left by the sampling call of the
example run reads back its nonzero sample 100 ms. -/
theorem frame_time_spec_witness :
    ({ frame_time_cell := 100, frames := 0, last_interval := 1100,
        update_interval := 1000 } : FrameRateCounter).frame_time = some 100 ∧
    (FrameRateCounter.new 1000 0).frame_time = none := by
  constructor
  · exact frame_time_spec.2.2 frcRunState _ 1100 100 (by decide) (by decide)
  · exact frame_time_spec.2.1 1000 0
